import Mathlib

/-!
Shallow embedding of the frame-orchestration and upload core of the
Houjuu-Nue/Vulkan repository (src/base/src/workflow/loops.rs,
src/base/src/ci/sync.rs, src/base/src/gltf/meshes/asset.rs).

External GPU/device operations are modelled as oracles: each fallible
Vulkan call is a field of a device record returning `Except VkErr _`,
and every function additionally produces a trace of the calls it makes,
so that temporal claims become statements about traces.
-/

namespace VulkanSpec

/-- Error type mirroring `VkError` of the repository (only the
constructors used by the embedded code). -/
inductive VkErr : Type
  | device (msg : String)
  | other (msg : String)
  | create (msg : String)
  deriving DecidableEq, Repr

/-- `SwapchainSyncError` as matched exhaustively in
`ProcPipeline::render_frame` (loops.rs): exactly the four variants
`SurfaceOutDate`, `SubOptimal`, `TimeOut`, `Unknown`. -/
inductive SwapchainSyncError : Type
  | SurfaceOutDate
  | SubOptimal
  | TimeOut
  | Unknown
  deriving DecidableEq, Repr

/-- Modelled from the spec: the display text of a `SwapchainSyncError`
(`e.to_string()` lives in the crate's context module, which is not part
of the sources; the claims do not depend on the exact text). -/
def SwapchainSyncError.msg : SwapchainSyncError → String
  | .SurfaceOutDate => "the surface is out of date"
  | .SubOptimal => "the surface is sub optimal"
  | .TimeOut => "the operation timed out"
  | .Unknown => "unknown swapchain error"

/-- The stale/suboptimal (recoverable) class of swapchain errors. -/
def SwapchainSyncError.isStale : SwapchainSyncError → Bool
  | .SurfaceOutDate => true
  | .SubOptimal => true
  | .TimeOut => false
  | .Unknown => false

/-- `FrameAction` (utils/frame), with the variant names used in loops.rs. -/
inductive FrameAction : Type
  | Rendering
  | SwapchainRecreate
  | Terminal
  deriving DecidableEq, Repr

-- ---------------------------------------------------------------------------
-- ci/sync.rs : SemaphoreCI and FenceCI
-- ---------------------------------------------------------------------------

/-- `vk::SemaphoreCreateInfo` reduced to the fields the code sets. -/
structure SemaphoreCreateInfo where
  flags : Nat
  deriving DecidableEq, Repr

/-- `SemaphoreCI::default_ci()` : empty flags. -/
def SemaphoreCI.default_ci : SemaphoreCreateInfo := { flags := 0 }

/-- Wrapper struct `SemaphoreCI` of ci/sync.rs. -/
structure SemaphoreCI where
  ci : SemaphoreCreateInfo
  deriving DecidableEq, Repr

/-- `SemaphoreCI::new()`. -/
def SemaphoreCI.new : SemaphoreCI := { ci := SemaphoreCI.default_ci }

/-- `vk::FenceCreateInfo` reduced to the fields the code sets. -/
structure FenceCreateInfo where
  flags : Nat
  deriving DecidableEq, Repr

/-- `vk::FenceCreateFlags::SIGNALED` bit. -/
def FENCE_CREATE_SIGNALED : Nat := 1

/-- `FenceCI::default_ci()` : empty flags. -/
def FenceCI.default_ci : FenceCreateInfo := { flags := 0 }

/-- Wrapper struct `FenceCI` of ci/sync.rs. -/
structure FenceCI where
  ci : FenceCreateInfo
  deriving DecidableEq, Repr

/-- `FenceCI::new(is_signed)` : starts from the default create-info and
sets the SIGNALED flag when `is_signed` is true. -/
def FenceCI.new (is_signed : Bool) : FenceCI :=
  let fence : FenceCI := { ci := FenceCI.default_ci }
  if is_signed then { fence with ci := { fence.ci with flags := FENCE_CREATE_SIGNALED } }
  else fence

/-- Vulkan semantics of fence creation: the fence starts signaled
exactly when the SIGNALED create flag is set. -/
def FenceCreateInfo.initialSignaled (ci : FenceCreateInfo) : Bool :=
  ci.flags &&& FENCE_CREATE_SIGNALED != 0

/-- Vulkan semantics of semaphore creation: a freshly created binary
semaphore is unsignaled (no create flag can change that). -/
def SemaphoreCreateInfo.initialSignaled (_ci : SemaphoreCreateInfo) : Bool :=
  false

-- ---------------------------------------------------------------------------
-- loops.rs : SyncResource
-- ---------------------------------------------------------------------------

/-- Oracle for the device calls made by `SyncResource`. -/
structure SyncDevice where
  createSemaphore : SemaphoreCreateInfo → Except VkErr Nat
  createFence : FenceCreateInfo → Except VkErr Nat

/-- Trace events of `SyncResource` operations. -/
inductive SyncEvent : Type
  | createSemaphore (ci : SemaphoreCreateInfo)
  | createFence (ci : FenceCreateInfo)
  | destroySemaphore (handle : Nat)
  | destroyFence (handle : Nat)
  deriving DecidableEq, Repr

/-- `SyncResource` of loops.rs. -/
structure SyncResource where
  frame_count : Nat
  await_present : Nat
  sync_fences : List Nat
  deriving DecidableEq, Repr

/-- The `for _ in 0..frame_count { sync_fences.push(fence_ci.build(device)?) }`
loop of `SyncResource::new`: builds `n` fences from the given create-info,
stopping at the first failure. -/
def buildFences (dev : SyncDevice) (ci : FenceCreateInfo) :
    Nat → List SyncEvent × Except VkErr (List Nat)
  | 0 => ([], .ok [])
  | n + 1 =>
    match dev.createFence ci with
    | .error e => ([.createFence ci], .error e)
    | .ok f =>
      match buildFences dev ci n with
      | (tr, .error e) => (.createFence ci :: tr, .error e)
      | (tr, .ok rest) => (.createFence ci :: tr, .ok (f :: rest))

/-- `SyncResource::new(device, frame_count)`: one semaphore from
`SemaphoreCI::new()`, then `frame_count` fences from `FenceCI::new(true)`. -/
def SyncResource.new (dev : SyncDevice) (frame_count : Nat) :
    List SyncEvent × Except VkErr SyncResource :=
  match dev.createSemaphore SemaphoreCI.new.ci with
  | .error e => ([.createSemaphore SemaphoreCI.new.ci], .error e)
  | .ok await_present =>
    match buildFences dev (FenceCI.new true).ci frame_count with
    | (tr, .error e) => (.createSemaphore SemaphoreCI.new.ci :: tr, .error e)
    | (tr, .ok sync_fences) =>
      (.createSemaphore SemaphoreCI.new.ci :: tr,
       .ok { frame_count, await_present, sync_fences })

/-- `SyncResource::discard`: destroys the semaphore and every fence, then
clears the fence list; `frame_count` (and the stale semaphore handle) are
left untouched. -/
def SyncResource.discard (s : SyncResource) : List SyncEvent × SyncResource :=
  (SyncEvent.destroySemaphore s.await_present :: s.sync_fences.map SyncEvent.destroyFence,
   { s with sync_fences := [] })

/-- `SyncResource::reset`: discard, then rebuild with the preserved
`frame_count`. -/
def SyncResource.reset (dev : SyncDevice) (s : SyncResource) :
    List SyncEvent × Except VkErr SyncResource :=
  let (tr1, s1) := s.discard
  let (tr2, r) := SyncResource.new dev s1.frame_count
  (tr1 ++ tr2, r)

-- ---------------------------------------------------------------------------
-- loops.rs : ProcPipeline::render_frame
-- ---------------------------------------------------------------------------

/-- Outcomes of the external operations one `render_frame` call performs,
in program order: the fence wait, the image acquisition, the fence reset,
the application render callback (returning the render-finished semaphore),
and presentation. -/
structure RenderEnv where
  waitFence : Bool
  nextImage : Except SwapchainSyncError Nat
  resetFence : Bool
  render : Except VkErr Nat
  present : Except SwapchainSyncError Unit

/-- Trace events of one `render_frame` call. -/
inductive REvent : Type
  | waitFence (fence : Nat)
  | acquireImage (semaphore : Nat)
  | resetFence (fence : Nat)
  | renderCall (fence : Nat) (semaphore : Nat) (imageIndex : Nat)
  | present (waitSem : Nat) (imageIndex : Nat)
  deriving DecidableEq, Repr

/-- `ProcPipeline::render_frame`, as a function of the oracle outcomes,
the fence pool, the shared `await_present` semaphore and the current
frame slot. Mirrors loops.rs lines 106-159: wait on the slot's fence,
acquire (stale errors return `SwapchainRecreate`, timeout/unknown are
fatal), reset the fence, call the app's render callback, present (same
error classification as acquire). -/
def render_frame (env : RenderEnv) (fences : List Nat) (await_present : Nat)
    (slot : Nat) : List REvent × Except VkErr FrameAction :=
  let fence_ready := fences.getD slot 0
  if env.waitFence then
    match env.nextImage with
    | .error .SurfaceOutDate =>
      ([.waitFence fence_ready, .acquireImage await_present], .ok .SwapchainRecreate)
    | .error .SubOptimal =>
      ([.waitFence fence_ready, .acquireImage await_present], .ok .SwapchainRecreate)
    | .error .TimeOut =>
      ([.waitFence fence_ready, .acquireImage await_present],
       .error (.other SwapchainSyncError.TimeOut.msg))
    | .error .Unknown =>
      ([.waitFence fence_ready, .acquireImage await_present],
       .error (.other SwapchainSyncError.Unknown.msg))
    | .ok acquire_image_index =>
      if env.resetFence then
        match env.render with
        | .error e =>
          ([.waitFence fence_ready, .acquireImage await_present,
            .resetFence fence_ready,
            .renderCall fence_ready await_present acquire_image_index], .error e)
        | .ok await_render =>
          match env.present with
          | .ok _ =>
            ([.waitFence fence_ready, .acquireImage await_present,
              .resetFence fence_ready,
              .renderCall fence_ready await_present acquire_image_index,
              .present await_render acquire_image_index], .ok .Rendering)
          | .error .SurfaceOutDate =>
            ([.waitFence fence_ready, .acquireImage await_present,
              .resetFence fence_ready,
              .renderCall fence_ready await_present acquire_image_index,
              .present await_render acquire_image_index], .ok .SwapchainRecreate)
          | .error .SubOptimal =>
            ([.waitFence fence_ready, .acquireImage await_present,
              .resetFence fence_ready,
              .renderCall fence_ready await_present acquire_image_index,
              .present await_render acquire_image_index], .ok .SwapchainRecreate)
          | .error .TimeOut =>
            ([.waitFence fence_ready, .acquireImage await_present,
              .resetFence fence_ready,
              .renderCall fence_ready await_present acquire_image_index,
              .present await_render acquire_image_index],
             .error (.other SwapchainSyncError.TimeOut.msg))
          | .error .Unknown =>
            ([.waitFence fence_ready, .acquireImage await_present,
              .resetFence fence_ready,
              .renderCall fence_ready await_present acquire_image_index,
              .present await_render acquire_image_index],
             .error (.other SwapchainSyncError.Unknown.msg))
      else
        ([.waitFence fence_ready, .acquireImage await_present, .resetFence fence_ready],
         .error (.device "Fence Resetting"))
  else
    ([.waitFence fence_ready], .error (.device "Fence waiting"))

-- ---------------------------------------------------------------------------
-- loops.rs : ProcPipeline::main_loop (one iteration of the `'loop_marker` loop)
-- ---------------------------------------------------------------------------

/-- Modelled from the spec: `FrameCounter` (crate::utils::frame is not among
the sources). `current_frame()` returns the active slot; `next_frame()`
advances to `(current + 1) mod frame_count`. -/
structure FrameCounter where
  frame_count : Nat
  current : Nat
  deriving DecidableEq, Repr

/-- Modelled from the spec: `FrameCounter::next_frame` advances the slot by
exactly one modulo the frame count. -/
def FrameCounter.next_frame (c : FrameCounter) : FrameCounter :=
  { c with current := (c.current + 1) % c.frame_count }

/-- Outcomes of the three device calls in the `SwapchainRecreate` arm of the
`response_feedback!` macro: `wait_idle`, `recreate_swapchain`,
`swapchain_reload`, each fallible. -/
structure RecreateEnv where
  waitIdle : Except VkErr Unit
  recreate : Except VkErr Unit
  reload : Except VkErr Unit

/-- All three recreation operations succeed. -/
def RecreateEnv.Ok (e : RecreateEnv) : Prop :=
  e.waitIdle = .ok () ∧ e.recreate = .ok () ∧ e.reload = .ok ()

/-- Oracle outcomes for one iteration of `main_loop`: the `FrameAction`
classified from the polled window events, the one returned by the
application's `receive_input`, the render-frame oracle, and the recreation
oracles at the three `response_feedback!` sites. -/
structure IterEnv where
  windowAction : FrameAction
  inputAction : FrameAction
  render : RenderEnv
  onWindow : RecreateEnv
  onInput : RecreateEnv
  onRender : RecreateEnv

/-- Trace events of one `main_loop` iteration. -/
inductive LEvent : Type
  | pollEvents
  | waitIdle
  | recreateSwapchain
  | swapchainReload
  | receiveInput
  | render (e : REvent)
  | inputTick
  | nextFrame
  | fpsTick
  deriving DecidableEq, Repr

/-- Outcome of one expansion of `response_feedback!`. -/
inductive RespOutcome : Type
  | proceed
  | exitLoop
  | fatal (e : VkErr)
  deriving DecidableEq, Repr

/-- The `response_feedback!` macro of `main_loop`: `Rendering` does nothing,
`SwapchainRecreate` waits for device idle, recreates the swapchain and asks
the app to reload (each step fallible, errors propagate), `Terminal` breaks
the loop. -/
def response_feedback (env : RecreateEnv) (a : FrameAction) :
    List LEvent × RespOutcome :=
  match a with
  | .Rendering => ([], .proceed)
  | .Terminal => ([], .exitLoop)
  | .SwapchainRecreate =>
    match env.waitIdle with
    | .error e => ([.waitIdle], .fatal e)
    | .ok _ =>
      match env.recreate with
      | .error e => ([.waitIdle, .recreateSwapchain], .fatal e)
      | .ok _ =>
        match env.reload with
        | .error e => ([.waitIdle, .recreateSwapchain, .swapchainReload], .fatal e)
        | .ok _ => ([.waitIdle, .recreateSwapchain, .swapchainReload], .proceed)

/-- Mutable state of the loop driver: the frame counter, the sync pool's
fences and shared semaphore, and the input/fps tick counters. -/
structure LoopState where
  counter : FrameCounter
  fences : List Nat
  await_present : Nat
  inputTicks : Nat
  fpsTicks : Nat
  deriving DecidableEq, Repr

/-- Outcome of one loop iteration: continue with a new state, break out of
the loop (`Terminal`), or propagate a fatal error. -/
inductive IterOutcome : Type
  | next (s : LoopState)
  | terminated
  | fatal (e : VkErr)
  deriving DecidableEq, Repr

/-- One iteration of `ProcPipeline::main_loop` (loops.rs lines 65-101):
poll events and classify them, `response_feedback!`; deliver input to the
app, `response_feedback!`; render the frame (fatal errors propagate via
`?`), `response_feedback!`; then tick the input handler, advance the frame
counter and tick the fps counter. -/
def main_loop_iter (env : IterEnv) (s : LoopState) : List LEvent × IterOutcome :=
  let (t1, r1) := response_feedback env.onWindow env.windowAction
  let tr1 := LEvent.pollEvents :: t1
  match r1 with
  | .exitLoop => (tr1, .terminated)
  | .fatal e => (tr1, .fatal e)
  | .proceed =>
    let (t2, r2) := response_feedback env.onInput env.inputAction
    let tr2 := tr1 ++ [LEvent.receiveInput] ++ t2
    match r2 with
    | .exitLoop => (tr2, .terminated)
    | .fatal e => (tr2, .fatal e)
    | .proceed =>
      let (rtr, rres) := render_frame env.render s.fences s.await_present s.counter.current
      let tr3 := tr2 ++ rtr.map LEvent.render
      match rres with
      | .error e => (tr3, .fatal e)
      | .ok act =>
        let (t3, r3) := response_feedback env.onRender act
        let tr4 := tr3 ++ t3
        match r3 with
        | .exitLoop => (tr4, .terminated)
        | .fatal e => (tr4, .fatal e)
        | .proceed =>
          (tr4 ++ [.inputTick, .nextFrame, .fpsTick],
           .next { s with counter := s.counter.next_frame,
                          inputTicks := s.inputTicks + 1,
                          fpsTicks := s.fpsTicks + 1 })

-- ---------------------------------------------------------------------------
-- gltf/meshes/asset.rs : MeshAsset upload pipeline
-- ---------------------------------------------------------------------------

/-- `vk::BufferUsageFlags` bits used by the upload pipeline (actual
Vulkan values). -/
def TRANSFER_SRC : Nat := 0x1
/-- `vk::BufferUsageFlags::TRANSFER_DST`. -/
def TRANSFER_DST : Nat := 0x2
/-- `vk::BufferUsageFlags::INDEX_BUFFER`. -/
def INDEX_BUFFER : Nat := 0x40
/-- `vk::BufferUsageFlags::VERTEX_BUFFER`. -/
def VERTEX_BUFFER : Nat := 0x80

/-- `vk::MemoryPropertyFlags::DEVICE_LOCAL`. -/
def DEVICE_LOCAL : Nat := 0x1
/-- `vk::MemoryPropertyFlags::HOST_VISIBLE`. -/
def HOST_VISIBLE : Nat := 0x2
/-- `vk::MemoryPropertyFlags::HOST_COHERENT`. -/
def HOST_COHERENT : Nat := 0x4

/-- A buffer create-info as assembled by `BufferCI`: the size declared by
the asset data plus the usage flags set with `.usage(..)`. -/
structure BufferCI where
  size : Nat
  usage : Nat
  deriving DecidableEq, Repr

/-- `vk::MemoryRequirements` as reported by the device for a buffer. -/
structure MemReq where
  size : Nat
  memory_type_bits : Nat
  deriving DecidableEq, Repr

/-- The mesh asset data the upload pipeline reads: `attributes.buffer_ci()`
always yields a create-info (its size is the interleaved vertex byte size);
`indices.buffer_ci()` yields one only when the asset has index data.
Modelled from the spec: AttributesData/IndicesData live in modules not among
the sources; the upload code only consumes the sizes of these create-infos. -/
structure MeshAssetData where
  vertexCISize : Nat
  indexCISize : Option Nat
  deriving DecidableEq, Repr

/-- `attributes.buffer_ci()` before `.usage(..)` is applied. -/
def MeshAssetData.attributes_buffer_ci (a : MeshAssetData) : Nat := a.vertexCISize

/-- `indices.buffer_ci()`: `Some` create-info size exactly when the asset
has index data. -/
def MeshAssetData.indices_buffer_ci (a : MeshAssetData) : Option Nat := a.indexCISize

/-- `MeshAssetBlock` of asset.rs: the vertex buffer with its
requirement size, the optional index buffer with its requirement size,
and the backing memory. -/
structure MeshAssetBlock where
  vertex : Nat × Nat
  index : Option (Nat × Nat)
  memory : Nat
  deriving DecidableEq, Repr

/-- `vk::BufferCopy`. -/
structure BufferCopy where
  src_offset : Nat
  dst_offset : Nat
  size : Nat
  deriving DecidableEq, Repr

/-- Trace events of the upload pipeline's device calls. -/
inductive MeshEvent : Type
  | createBuffer (ci : BufferCI)
  | queryMemoryType (type_bits : Nat) (props : Nat)
  | allocMemory (size : Nat) (memory_type : Nat)
  | mapMemory (offset : Nat) (size : Nat)
  | unmapMemory
  | bindBuffer (buffer : Nat) (offset : Nat)
  | createCommandPool
  | createCommandBuffer
  | beginRecord
  | recordCopy (src : Nat) (dst : Nat) (region : BufferCopy)
  | endRecord
  | createFence (signaled : Bool)
  | queueSubmit (fence : Nat)
  | waitFence (fence : Nat) (timeoutInfinite : Bool)
  | destroyFence (fence : Nat)
  | destroyCommandPool
  | destroyBuffer (buffer : Nat)
  | destroyMemory (memory : Nat)
  deriving DecidableEq, Repr

/-- Oracle for the device calls of the upload pipeline. Fallible Vulkan
calls return `Except VkErr _`; `get_memory_type_index` (crate::utils::memory,
not among the sources) returns a plain index at its call sites, so it is a
total function here. -/
structure GpuDevice where
  buildBuffer : BufferCI → Except VkErr (Nat × MemReq)
  getMemoryTypeIndex : Nat → Nat → Nat
  buildMemory : Nat → Nat → Except VkErr Nat
  mapMemory : Nat → Nat → Nat → Except VkErr Unit
  bind : Nat → Nat → Nat → Except VkErr Unit
  buildCommandPool : Except VkErr Nat
  buildCommandBuffer : Nat → Except VkErr Nat
  beginRecord : Except VkErr Unit
  endRecord : Except VkErr Unit
  buildFence : Bool → Except VkErr Nat
  queueSubmit : Nat → Except VkErr Unit
  waitForFences : Nat → Except VkErr Unit

/-- `MeshAsset::allocate_mesh`: build the vertex buffer with usage
`VERTEX_BUFFER | TRANSFER_DST`; if the asset has indices, build the index
buffer with `INDEX_BUFFER | TRANSFER_DST`, pick a memory type from the
intersection of both requirement bitmasks with `DEVICE_LOCAL`, and allocate
the sum of the requirement sizes; otherwise pick a memory type from the
vertex bitmask with `DEVICE_LOCAL | HOST_COHERENT` and allocate the vertex
requirement size. -/
def allocate_mesh (dev : GpuDevice) (asset : MeshAssetData) :
    List MeshEvent × Except VkErr MeshAssetBlock :=
  let vertexCI : BufferCI :=
    { size := asset.attributes_buffer_ci, usage := VERTEX_BUFFER ||| TRANSFER_DST }
  match dev.buildBuffer vertexCI with
  | .error e => ([.createBuffer vertexCI], .error e)
  | .ok (vertex_buffer, vertex_requirement) =>
    match asset.indices_buffer_ci with
    | some indexSize =>
      let indexCI : BufferCI := { size := indexSize, usage := INDEX_BUFFER ||| TRANSFER_DST }
      match dev.buildBuffer indexCI with
      | .error e => ([.createBuffer vertexCI, .createBuffer indexCI], .error e)
      | .ok (index_buffer, index_requirement) =>
        let bits := vertex_requirement.memory_type_bits &&& index_requirement.memory_type_bits
        let memory_type := dev.getMemoryTypeIndex bits DEVICE_LOCAL
        let totalSize := vertex_requirement.size + index_requirement.size
        match dev.buildMemory totalSize memory_type with
        | .error e =>
          ([.createBuffer vertexCI, .createBuffer indexCI,
            .queryMemoryType bits DEVICE_LOCAL, .allocMemory totalSize memory_type], .error e)
        | .ok mesh_memory =>
          ([.createBuffer vertexCI, .createBuffer indexCI,
            .queryMemoryType bits DEVICE_LOCAL, .allocMemory totalSize memory_type],
           .ok { vertex := (vertex_buffer, vertex_requirement.size),
                 index := some (index_buffer, index_requirement.size),
                 memory := mesh_memory })
    | none =>
      let bits := vertex_requirement.memory_type_bits
      let memory_type := dev.getMemoryTypeIndex bits (DEVICE_LOCAL ||| HOST_COHERENT)
      match dev.buildMemory vertex_requirement.size memory_type with
      | .error e =>
        ([.createBuffer vertexCI, .queryMemoryType bits (DEVICE_LOCAL ||| HOST_COHERENT),
          .allocMemory vertex_requirement.size memory_type], .error e)
      | .ok mesh_memory =>
        ([.createBuffer vertexCI, .queryMemoryType bits (DEVICE_LOCAL ||| HOST_COHERENT),
          .allocMemory vertex_requirement.size memory_type],
         .ok { vertex := (vertex_buffer, vertex_requirement.size),
               index := none,
               memory := mesh_memory })

/-- The map-and-bind tail of `MeshAsset::allocate_staging` (asset.rs lines
156-182): map the vertex range at offset 0, map the index range at offset
`vertex.1` when present, unmap, then bind the vertex buffer at offset 0 and
the index buffer at offset `vertex.1`. -/
def staging_map_bind (dev : GpuDevice) (block : MeshAssetBlock) :
    List MeshEvent × Except VkErr Unit :=
  match dev.mapMemory block.memory 0 block.vertex.2 with
  | .error _ => ([.mapMemory 0 block.vertex.2], .error (.device "Map Memory"))
  | .ok _ =>
    match block.index with
    | some index_buffer =>
      match dev.mapMemory block.memory block.vertex.2 index_buffer.2 with
      | .error _ =>
        ([.mapMemory 0 block.vertex.2, .mapMemory block.vertex.2 index_buffer.2],
         .error (.device "Map Memory"))
      | .ok _ =>
        match dev.bind block.vertex.1 block.memory 0 with
        | .error e =>
          ([.mapMemory 0 block.vertex.2, .mapMemory block.vertex.2 index_buffer.2,
            .unmapMemory, .bindBuffer block.vertex.1 0], .error e)
        | .ok _ =>
          match dev.bind index_buffer.1 block.memory block.vertex.2 with
          | .error e =>
            ([.mapMemory 0 block.vertex.2, .mapMemory block.vertex.2 index_buffer.2,
              .unmapMemory, .bindBuffer block.vertex.1 0,
              .bindBuffer index_buffer.1 block.vertex.2], .error e)
          | .ok _ =>
            ([.mapMemory 0 block.vertex.2, .mapMemory block.vertex.2 index_buffer.2,
              .unmapMemory, .bindBuffer block.vertex.1 0,
              .bindBuffer index_buffer.1 block.vertex.2], .ok ())
    | none =>
      match dev.bind block.vertex.1 block.memory 0 with
      | .error e =>
        ([.mapMemory 0 block.vertex.2, .unmapMemory, .bindBuffer block.vertex.1 0], .error e)
      | .ok _ =>
        ([.mapMemory 0 block.vertex.2, .unmapMemory, .bindBuffer block.vertex.1 0], .ok ())

/-- The allocation section of `MeshAsset::allocate_staging`: build the
vertex (and, when present, index) staging buffers with usage `TRANSFER_SRC`;
both sub-paths pick the memory type with `HOST_VISIBLE | HOST_COHERENT`
(indexed from the intersection of both requirement bitmasks, non-indexed
from the vertex bitmask alone). -/
def allocate_staging_block (dev : GpuDevice) (asset : MeshAssetData) :
    List MeshEvent × Except VkErr MeshAssetBlock :=
  let vertexCI : BufferCI := { size := asset.attributes_buffer_ci, usage := TRANSFER_SRC }
  match dev.buildBuffer vertexCI with
  | .error e => ([.createBuffer vertexCI], .error e)
  | .ok (vertex_buffer, vertex_requirement) =>
    match asset.indices_buffer_ci with
    | some indexSize =>
      let indexCI : BufferCI := { size := indexSize, usage := TRANSFER_SRC }
      match dev.buildBuffer indexCI with
      | .error e => ([.createBuffer vertexCI, .createBuffer indexCI], .error e)
      | .ok (index_buffer, index_requirement) =>
        let bits := vertex_requirement.memory_type_bits &&& index_requirement.memory_type_bits
        let memory_type := dev.getMemoryTypeIndex bits (HOST_VISIBLE ||| HOST_COHERENT)
        let totalSize := vertex_requirement.size + index_requirement.size
        match dev.buildMemory totalSize memory_type with
        | .error e =>
          ([.createBuffer vertexCI, .createBuffer indexCI,
            .queryMemoryType bits (HOST_VISIBLE ||| HOST_COHERENT),
            .allocMemory totalSize memory_type], .error e)
        | .ok mesh_memory =>
          ([.createBuffer vertexCI, .createBuffer indexCI,
            .queryMemoryType bits (HOST_VISIBLE ||| HOST_COHERENT),
            .allocMemory totalSize memory_type],
           .ok { vertex := (vertex_buffer, vertex_requirement.size),
                 index := some (index_buffer, index_requirement.size),
                 memory := mesh_memory })
    | none =>
      let bits := vertex_requirement.memory_type_bits
      let memory_type := dev.getMemoryTypeIndex bits (HOST_VISIBLE ||| HOST_COHERENT)
      match dev.buildMemory vertex_requirement.size memory_type with
      | .error e =>
        ([.createBuffer vertexCI,
          .queryMemoryType bits (HOST_VISIBLE ||| HOST_COHERENT),
          .allocMemory vertex_requirement.size memory_type], .error e)
      | .ok mesh_memory =>
        ([.createBuffer vertexCI,
          .queryMemoryType bits (HOST_VISIBLE ||| HOST_COHERENT),
          .allocMemory vertex_requirement.size memory_type],
         .ok { vertex := (vertex_buffer, vertex_requirement.size),
               index := none,
               memory := mesh_memory })

/-- `MeshAsset::allocate_staging`: the buffer/memory allocation section
followed by the map-and-bind section. -/
def allocate_staging (dev : GpuDevice) (asset : MeshAssetData) :
    List MeshEvent × Except VkErr MeshAssetBlock :=
  match allocate_staging_block dev asset with
  | (tr, .error e) => (tr, .error e)
  | (tr, .ok block) =>
    match staging_map_bind dev block with
    | (tr2, .error e) => (tr ++ tr2, .error e)
    | (tr2, .ok _) => (tr ++ tr2, .ok block)

/-- Rust-level outcome of a call that can also panic (`Option::unwrap`). -/
inductive RustResult (α : Type) : Type
  | ok (a : α)
  | err (e : VkErr)
  | panicked
  deriving DecidableEq, Repr

/-- The region-recording section of `MeshAsset::copy_staging2mesh`: record
the vertex copy region `{src 0, dst 0, size staging.vertex.1}` and, when the
staging block has an index buffer, the index region
`{src staging.vertex.1, dst staging.vertex.1, size index.1}` into
`mesh.index.unwrap().0` — a Rust panic when `mesh.index` is `None`. -/
def record_regions (staging mesh : MeshAssetBlock) :
    List MeshEvent × RustResult Unit :=
  let vertex_copy_region : BufferCopy :=
    { src_offset := 0, dst_offset := 0, size := staging.vertex.2 }
  let tr0 : List MeshEvent :=
    [.recordCopy staging.vertex.1 mesh.vertex.1 vertex_copy_region]
  match staging.index with
  | some index_buffer =>
    let index_copy_region : BufferCopy :=
      { src_offset := staging.vertex.2, dst_offset := staging.vertex.2,
        size := index_buffer.2 }
    match mesh.index with
    | none => (tr0, .panicked)
    | some mesh_index =>
      (tr0 ++ [.recordCopy index_buffer.1 mesh_index.1 index_copy_region], .ok ())
  | none => (tr0, .ok ())

/-- `MeshAsset::copy_staging2mesh`: build a one-shot command pool and
buffer, record the copy regions (`record_regions`), then build an unsignaled
fence, submit gated by it, wait on it with an infinite timeout, and destroy
the fence and the command pool. -/
def copy_staging2mesh (dev : GpuDevice) (staging mesh : MeshAssetBlock) :
    List MeshEvent × RustResult Unit :=
  match dev.buildCommandPool with
  | .error e => ([.createCommandPool], .err e)
  | .ok command_pool =>
    match dev.buildCommandBuffer command_pool with
    | .error e => ([.createCommandPool, .createCommandBuffer], .err e)
    | .ok _copy_command =>
      match dev.beginRecord with
      | .error e => ([.createCommandPool, .createCommandBuffer, .beginRecord], .err e)
      | .ok _ =>
        match record_regions staging mesh with
        | (rtr, .panicked) =>
          ([.createCommandPool, .createCommandBuffer, .beginRecord] ++ rtr, .panicked)
        | (rtr, .err e) =>
          ([.createCommandPool, .createCommandBuffer, .beginRecord] ++ rtr, .err e)
        | (rtr, .ok _) =>
          let tr := [MeshEvent.createCommandPool, .createCommandBuffer, .beginRecord] ++ rtr
          match dev.endRecord with
          | .error e => (tr ++ [.endRecord], .err e)
          | .ok _ =>
            match dev.buildFence false with
            | .error e => (tr ++ [.endRecord, .createFence false], .err e)
            | .ok fence =>
              match dev.queueSubmit fence with
              | .error _ =>
                (tr ++ [.endRecord, .createFence false, .queueSubmit fence],
                 .err (.device "Queue Submit"))
              | .ok _ =>
                match dev.waitForFences fence with
                | .error _ =>
                  (tr ++ [.endRecord, .createFence false, .queueSubmit fence,
                          .waitFence fence true],
                   .err (.device "Wait for fences"))
                | .ok _ =>
                  (tr ++ [.endRecord, .createFence false, .queueSubmit fence,
                          .waitFence fence true, .destroyFence fence, .destroyCommandPool],
                   .ok ())

/-- `MeshAssetBlock::discard`: destroy the vertex buffer, the index buffer
when present, and the memory. -/
def MeshAssetBlock.discard (block : MeshAssetBlock) : List MeshEvent :=
  [.destroyBuffer block.vertex.1]
    ++ (match block.index with
        | some index_buffer => [MeshEvent.destroyBuffer index_buffer.1]
        | none => [])
    ++ [.destroyMemory block.memory]

/-- `MeshAsset::allocate`: allocate the staging block, allocate the mesh
block, copy staging to mesh, discard the staging block, and return the mesh
block. -/
def allocate (dev : GpuDevice) (asset : MeshAssetData) :
    List MeshEvent × RustResult MeshAssetBlock :=
  match allocate_staging dev asset with
  | (tr, .error e) => (tr, .err e)
  | (tr, .ok staging_block) =>
    match allocate_mesh dev asset with
    | (tr2, .error e) => (tr ++ tr2, .err e)
    | (tr2, .ok mesh_block) =>
      match copy_staging2mesh dev staging_block mesh_block with
      | (tr3, .panicked) => (tr ++ tr2 ++ tr3, .panicked)
      | (tr3, .err e) => (tr ++ tr2 ++ tr3, .err e)
      | (tr3, .ok _) =>
        (tr ++ tr2 ++ tr3 ++ staging_block.discard, .ok mesh_block)

/-- All-success device oracle: total functions supplying the handles and
requirements the device would report; every fallible call succeeds. -/
structure GpuOracle where
  bufHandle : BufferCI → Nat
  bufReq : BufferCI → MemReq
  memTypeIdx : Nat → Nat → Nat
  memHandle : Nat → Nat → Nat
  poolHandle : Nat
  cmdHandle : Nat
  fenceHandle : Nat

/-- The `GpuDevice` in which every call succeeds with the oracle's values. -/
def GpuOracle.toDevice (o : GpuOracle) : GpuDevice where
  buildBuffer := fun ci => .ok (o.bufHandle ci, o.bufReq ci)
  getMemoryTypeIndex := o.memTypeIdx
  buildMemory := fun size t => .ok (o.memHandle size t)
  mapMemory := fun _ _ _ => .ok ()
  bind := fun _ _ _ => .ok ()
  buildCommandPool := .ok o.poolHandle
  buildCommandBuffer := fun _ => .ok o.cmdHandle
  beginRecord := .ok ()
  endRecord := .ok ()
  buildFence := fun _ => .ok o.fenceHandle
  queueSubmit := fun _ => .ok ()
  waitForFences := fun _ => .ok ()

-- ---------------------------------------------------------------------------
-- Trace observations and concrete instances used by the theorems
-- ---------------------------------------------------------------------------

/-- The `(memory-type bitmask, property flags)` pairs of the
`get_memory_type_index` calls in a trace, in order. -/
def memQueries : List MeshEvent → List (Nat × Nat)
  | [] => []
  | .queryMemoryType bits props :: rest => (bits, props) :: memQueries rest
  | _ :: rest => memQueries rest

/-- The copy regions recorded in a trace, in order. -/
def copyRegions : List MeshEvent → List BufferCopy
  | [] => []
  | .recordCopy _ _ region :: rest => region :: copyRegions rest
  | _ :: rest => copyRegions rest

/-- The buffer-bind offsets of a trace, in order. -/
def bindOffsets : List MeshEvent → List Nat
  | [] => []
  | .bindBuffer _ offset :: rest => offset :: bindOffsets rest
  | _ :: rest => bindOffsets rest

/-- How many buffers a trace creates. -/
def createdBuffers : List MeshEvent → Nat
  | [] => 0
  | .createBuffer _ :: rest => createdBuffers rest + 1
  | _ :: rest => createdBuffers rest

/-- Whether an event destroys a resource (fence, command pool, buffer or
memory). -/
def MeshEvent.isDestroy : MeshEvent → Bool
  | .destroyFence _ => true
  | .destroyCommandPool => true
  | .destroyBuffer _ => true
  | .destroyMemory _ => true
  | _ => false

/-- Every destroy event of the trace occurs after a fence wait: scanning
left to right, no resource is destroyed before a `waitFence` event is seen. -/
def destroysAfterWait : List MeshEvent → Bool
  | [] => true
  | .waitFence _ _ :: _ => true
  | ev :: rest => !ev.isDestroy && destroysAfterWait rest

/-- Device oracle for the C6 witness. -/
def syncDevC6 : SyncDevice :=
  { createSemaphore := fun _ => .ok 7, createFence := fun _ => .ok 3 }

/-- Device oracle for the C10 witness. -/
def syncDevC10 : SyncDevice :=
  { createSemaphore := fun _ => .ok 9, createFence := fun _ => .ok 4 }

/-- Render-frame oracle for the C1 witness: acquisition reports
`SubOptimal`. -/
def renderEnvC1 : RenderEnv :=
  { waitFence := true, nextImage := .error .SubOptimal, resetFence := true,
    render := .ok 30, present := .ok () }

/-- Render-frame oracle for the C4 witness, acquisition side: `OutOfDate`. -/
def renderEnvC4a : RenderEnv :=
  { waitFence := true, nextImage := .error .SurfaceOutDate, resetFence := true,
    render := .ok 30, present := .ok () }

/-- Render-frame oracle for the C4 witness, presentation side: `TimeOut`. -/
def renderEnvC4b : RenderEnv :=
  { waitFence := true, nextImage := .ok 1, resetFence := true,
    render := .ok 30, present := .error .TimeOut }

/-- A `RecreateEnv` in which all three recreation steps succeed. -/
def recreateOkEnv : RecreateEnv :=
  { waitIdle := .ok (), recreate := .ok (), reload := .ok () }

/-- Iteration oracle with a `SubOptimal` image acquisition and benign
input: the configuration of the C2 scenario (stale surface on an otherwise
normal frame). -/
def iterEnvC2 : IterEnv :=
  { windowAction := .Rendering, inputAction := .Rendering,
    render := { waitFence := true, nextImage := .error .SubOptimal,
                resetFence := true, render := .ok 30, present := .ok () },
    onWindow := recreateOkEnv, onInput := recreateOkEnv, onRender := recreateOkEnv }

/-- Loop state at logical frame 7 with N = 3 frames in flight
(slot 7 mod 3 = 1). -/
def loopStateC2 : LoopState :=
  { counter := { frame_count := 3, current := 1 }, fences := [10, 11, 12],
    await_present := 20, inputTicks := 7, fpsTicks := 7 }

/-- Iteration oracle for the C5 witness: the window checkpoint itself asks
for recreation, everything else is benign. -/
def iterEnvC5 : IterEnv :=
  { windowAction := .SwapchainRecreate, inputAction := .Rendering,
    render := { waitFence := true, nextImage := .ok 0, resetFence := true,
                render := .ok 30, present := .ok () },
    onWindow := recreateOkEnv, onInput := recreateOkEnv, onRender := recreateOkEnv }

/-- Device oracle for the C3 counterexample: every buffer reports
requirement bitmask `0xFF` and its create-info size. -/
def gpuOracleC3 : GpuOracle :=
  { bufHandle := fun _ => 1,
    bufReq := fun ci => { size := ci.size, memory_type_bits := 0xFF },
    memTypeIdx := fun _ _ => 0, memHandle := fun _ _ => 2,
    poolHandle := 3, cmdHandle := 4, fenceHandle := 5 }

/-- An asset with index data (96 vertex bytes, 24 index bytes). -/
def assetIndexed : MeshAssetData := { vertexCISize := 96, indexCISize := some 24 }

/-- The same asset without index data. -/
def assetNonIndexed : MeshAssetData := { vertexCISize := 96, indexCISize := none }

-- ---------------------------------------------------------------------------
-- Helper lemmas
-- ---------------------------------------------------------------------------

/-- A successful `buildFences dev ci n` traces exactly `n` fence creations
from `ci` and returns exactly `n` fence handles. -/
theorem buildFences_ok (dev : SyncDevice) (ci : FenceCreateInfo) :
    ∀ n tr l, buildFences dev ci n = (tr, .ok l) →
      tr = List.replicate n (SyncEvent.createFence ci) ∧ l.length = n := by
  intro n
  induction n with
  | zero =>
    intro tr l h
    simp only [buildFences] at h
    injection h with h1 h2
    injection h2 with h2
    subst h1; subst h2
    simp
  | succ n ih =>
    intro tr l h
    simp only [buildFences] at h
    cases hf : dev.createFence ci with
    | error e => rw [hf] at h; exact absurd h (by simp)
    | ok f =>
      rw [hf] at h
      cases hrec : buildFences dev ci n with
      | mk tr2 r =>
        cases r with
        | error e => rw [hrec] at h; exact absurd h (by simp)
        | ok rest =>
          rw [hrec] at h
          injection h with h1 h2
          injection h2 with h2
          subst h1; subst h2
          obtain ⟨htr, hlen⟩ := ih tr2 rest hrec
          subst htr
          simp [List.replicate_succ, hlen]

/-- A successful `SyncResource.new dev n` traces one default-semaphore
creation followed by `n` signaled-fence creations, and returns a pool with
`frame_count = n` and exactly `n` fences. -/
theorem SyncResource.new_ok (dev : SyncDevice) (n : Nat) (tr : List SyncEvent)
    (syncs : SyncResource) (h : SyncResource.new dev n = (tr, .ok syncs)) :
    tr = SyncEvent.createSemaphore { flags := 0 } ::
        List.replicate n (SyncEvent.createFence { flags := FENCE_CREATE_SIGNALED }) ∧
    syncs.frame_count = n ∧ syncs.sync_fences.length = n := by
  unfold SyncResource.new at h
  split at h
  · exact absurd h (by simp)
  · rename_i sem heq
    split at h
    · exact absurd h (by simp)
    · rename_i tr2 fences hbf
      injection h with h1 h2
      injection h2 with h2
      obtain ⟨htr, hlen⟩ := buildFences_ok dev (FenceCI.new true).ci n tr2 fences hbf
      have hci : (FenceCI.new true).ci = { flags := FENCE_CREATE_SIGNALED } := rfl
      have hsem : SemaphoreCI.new.ci = ({ flags := 0 } : SemaphoreCreateInfo) := rfl
      subst h1
      subst h2
      rw [hci] at htr
      subst htr
      exact ⟨by rw [hsem], rfl, hlen⟩

-- ---------------------------------------------------------------------------
-- Claim theorems
-- ---------------------------------------------------------------------------

/-- C6: for every frameCount N ≥ 1, a successful `SyncResource::new(device, N)`
creates exactly one semaphore built from the default (unsignaled) create-info
and exactly N fences each built with the SIGNALED create flag, so immediately
after initialization all N fences are signaled and the image-acquired
semaphore is unsignaled. -/
theorem claim_C6_sync_new_initial_state (dev : SyncDevice) (N : Nat)
    (tr : List SyncEvent) (syncs : SyncResource) (_hN : 1 ≤ N)
    (h : SyncResource.new dev N = (tr, .ok syncs)) :
    tr = SyncEvent.createSemaphore { flags := 0 } ::
        List.replicate N (SyncEvent.createFence { flags := FENCE_CREATE_SIGNALED }) ∧
    syncs.sync_fences.length = N ∧
    (∀ ci, SyncEvent.createFence ci ∈ tr → ci.initialSignaled = true) ∧
    (∀ ci, SyncEvent.createSemaphore ci ∈ tr → ci.initialSignaled = false) := by
  obtain ⟨htr, _, hlen⟩ := SyncResource.new_ok dev N tr syncs h
  subst htr
  refine ⟨rfl, hlen, ?_, ?_⟩
  · intro ci hci
    rcases List.mem_cons.mp hci with hl | hl
    · simp at hl
    · have hrep := List.eq_of_mem_replicate hl
      injection hrep with hrep
      subst hrep
      decide
  · intro ci _
    rfl


/-- Witness for C6 at N = 2. -/
theorem claim_C6_witness :
    [SyncEvent.createSemaphore { flags := 0 }, SyncEvent.createFence { flags := 1 },
      SyncEvent.createFence { flags := 1 }] =
      SyncEvent.createSemaphore { flags := 0 } ::
        List.replicate 2 (SyncEvent.createFence { flags := FENCE_CREATE_SIGNALED }) ∧
    ({ frame_count := 2, await_present := 7, sync_fences := [3, 3] } :
      SyncResource).sync_fences.length = 2 :=
  ⟨(claim_C6_sync_new_initial_state syncDevC6 2 _ _ (by decide) rfl).1,
   (claim_C6_sync_new_initial_state syncDevC6 2 _ _ (by decide) rfl).2.1⟩

/-- C10: `SyncResource::discard` leaves the fence list empty and `frame_count`
unchanged, and `SyncResource::reset` rebuilds the pool from the preserved
`frame_count`; hence after any successful reset the pool holds exactly as
many fences as before — reset can never change the frames-in-flight count. -/
theorem claim_C10_reset_preserves_frame_count (dev : SyncDevice)
    (s s' : SyncResource) :
    (s.discard).2.sync_fences = [] ∧
    (s.discard).2.frame_count = s.frame_count ∧
    ((SyncResource.reset dev s).2 = .ok s' →
      s'.frame_count = s.frame_count ∧
      s'.sync_fences.length = s.frame_count ∧
      (s.sync_fences.length = s.frame_count →
        s'.sync_fences.length = s.sync_fences.length)) := by
  refine ⟨rfl, rfl, ?_⟩
  intro h
  have h2 : (SyncResource.new dev s.frame_count).2 = .ok s' := h
  obtain ⟨_, hfc, hlen⟩ :=
    SyncResource.new_ok dev s.frame_count (SyncResource.new dev s.frame_count).1 s'
      (by rw [← h2])
  exact ⟨hfc, hlen, fun hh => hlen.trans hh.symm⟩


/-- Witness for C10: a pool of two fences still holds two fences after reset. -/
theorem claim_C10_witness :
    ({ frame_count := 2, await_present := 9, sync_fences := [4, 4] } :
        SyncResource).sync_fences.length =
      ({ frame_count := 2, await_present := 7, sync_fences := [3, 3] } :
        SyncResource).sync_fences.length :=
  ((claim_C10_reset_preserves_frame_count syncDevC10
      { frame_count := 2, await_present := 7, sync_fences := [3, 3] }
      { frame_count := 2, await_present := 9, sync_fences := [4, 4] }).2.2 rfl).2.2 rfl

/-- C1: in `render_frame`, the per-slot fence is reset only after the wait on
it has succeeded and only after image acquisition has succeeded; whenever
acquisition reports a stale/suboptimal surface, `render_frame` returns
`SwapchainRecreate` without ever resetting the fence; and the fence is reset
at most once, immediately before the submission (the render callback) that
will signal it again. -/
theorem claim_C1_reset_only_after_wait_and_acquire (env : RenderEnv)
    (fences : List Nat) (ap slot : Nat) (tr : List REvent)
    (res : Except VkErr FrameAction)
    (h : render_frame env fences ap slot = (tr, res)) :
    (REvent.resetFence (fences.getD slot 0) ∈ tr →
      env.waitFence = true ∧ ∃ i, env.nextImage = .ok i) ∧
    (∀ e, env.waitFence = true → env.nextImage = .error e → e.isStale = true →
      tr = [.waitFence (fences.getD slot 0), .acquireImage ap] ∧
      res = .ok .SwapchainRecreate ∧
      REvent.resetFence (fences.getD slot 0) ∉ tr) ∧
    (REvent.resetFence (fences.getD slot 0) ∈ tr →
      ∃ rest, tr = [.waitFence (fences.getD slot 0), .acquireImage ap,
          .resetFence (fences.getD slot 0)] ++ rest ∧
        REvent.resetFence (fences.getD slot 0) ∉ rest) ∧
    (env.resetFence = true → REvent.resetFence (fences.getD slot 0) ∈ tr →
      ∃ i rest, env.nextImage = .ok i ∧
        tr = [.waitFence (fences.getD slot 0), .acquireImage ap,
          .resetFence (fences.getD slot 0),
          .renderCall (fences.getD slot 0) ap i] ++ rest ∧
        REvent.resetFence (fences.getD slot 0) ∉ rest) := by
  simp only [render_frame] at h
  split at h
  · -- wait succeeded
    rename_i hw
    split at h
    · -- acquisition : SurfaceOutDate
      rename_i heq
      injection h with h1 h2
      subst h1; subst h2
      refine ⟨?_, ?_, ?_, ?_⟩
      · intro hmem; simp at hmem
      · intro e _ hni _
        rw [heq] at hni
        injection hni with hni
        exact ⟨rfl, rfl, by simp⟩
      · intro hmem; simp at hmem
      · intro _ hmem; simp at hmem
    · -- acquisition : SubOptimal
      rename_i heq
      injection h with h1 h2
      subst h1; subst h2
      refine ⟨?_, ?_, ?_, ?_⟩
      · intro hmem; simp at hmem
      · intro e _ hni _
        rw [heq] at hni
        injection hni with hni
        exact ⟨rfl, rfl, by simp⟩
      · intro hmem; simp at hmem
      · intro _ hmem; simp at hmem
    · -- acquisition : TimeOut
      rename_i heq
      injection h with h1 h2
      subst h1; subst h2
      refine ⟨?_, ?_, ?_, ?_⟩
      · intro hmem; simp at hmem
      · intro e _ hni hstale
        rw [heq] at hni
        injection hni with hni
        subst hni
        simp [SwapchainSyncError.isStale] at hstale
      · intro hmem; simp at hmem
      · intro _ hmem; simp at hmem
    · -- acquisition : Unknown
      rename_i heq
      injection h with h1 h2
      subst h1; subst h2
      refine ⟨?_, ?_, ?_, ?_⟩
      · intro hmem; simp at hmem
      · intro e _ hni hstale
        rw [heq] at hni
        injection hni with hni
        subst hni
        simp [SwapchainSyncError.isStale] at hstale
      · intro hmem; simp at hmem
      · intro _ hmem; simp at hmem
    · -- acquisition succeeded
      rename_i i heq
      split at h
      · -- fence reset succeeded
        split at h
        · -- render callback failed
          injection h with h1 h2
          subst h1; subst h2
          refine ⟨?_, ?_, ?_, ?_⟩
          · intro _; exact ⟨hw, i, heq⟩
          · intro e _ hni _
            rw [heq] at hni
            simp at hni
          · intro _
            exact ⟨[.renderCall (fences.getD slot 0) ap i], rfl, by simp⟩
          · intro _ _
            exact ⟨i, [], heq, rfl, by simp⟩
        · -- render callback succeeded: present step
          rename_i sem heqr
          split at h <;>
          · injection h with h1 h2
            subst h1; subst h2
            refine ⟨?_, ?_, ?_, ?_⟩
            · intro _; exact ⟨hw, i, heq⟩
            · intro e _ hni _
              rw [heq] at hni
              simp at hni
            · intro _
              exact ⟨[.renderCall (fences.getD slot 0) ap i, .present sem i], rfl, by simp⟩
            · intro _ _
              exact ⟨i, [.present sem i], heq, rfl, by simp⟩
      · -- fence reset failed
        rename_i hrf
        injection h with h1 h2
        subst h1; subst h2
        refine ⟨?_, ?_, ?_, ?_⟩
        · intro _; exact ⟨hw, i, heq⟩
        · intro e _ hni _
          rw [heq] at hni
          simp at hni
        · intro _
          exact ⟨[], rfl, by simp⟩
        · intro hrf' _
          exact absurd hrf' hrf
  · -- wait failed
    rename_i hw
    injection h with h1 h2
    subst h1; subst h2
    refine ⟨?_, ?_, ?_, ?_⟩
    · intro hmem; simp at hmem
    · intro e hw' _ _
      exact absurd hw' hw
    · intro hmem; simp at hmem
    · intro _ hmem; simp at hmem


/-- Witness for C1: with a stale acquisition the call returns
`SwapchainRecreate` and its trace holds no fence reset. -/
theorem claim_C1_witness :
    [REvent.waitFence 5, REvent.acquireImage 20] =
      [REvent.waitFence ([5].getD 0 0), .acquireImage 20] ∧
    (Except.ok FrameAction.SwapchainRecreate :
        Except VkErr FrameAction) = .ok .SwapchainRecreate ∧
    REvent.resetFence ([5].getD 0 0) ∉ [REvent.waitFence 5, REvent.acquireImage 20] :=
  (claim_C1_reset_only_after_wait_and_acquire renderEnvC1 [5] 20 0
      [REvent.waitFence 5, REvent.acquireImage 20]
      (.ok .SwapchainRecreate) rfl).2.1 .SubOptimal rfl rfl rfl

/-- C4: in both the image-acquisition and the presentation step of
`render_frame`, `OutOfDate`/`SubOptimal` yield the non-error value
`SwapchainRecreate` while `TimeOut`/`Unknown` yield a fatal error, and the
four variants are the only possible swapchain-error outcomes in either
step. -/
theorem claim_C4_stale_vs_fatal_classification (env : RenderEnv)
    (fences : List Nat) (ap slot : Nat) :
    (∀ e, env.waitFence = true → env.nextImage = .error e →
      ((e.isStale = true →
        (render_frame env fences ap slot).2 = .ok .SwapchainRecreate) ∧
       (e.isStale = false →
        (render_frame env fences ap slot).2 = .error (.other e.msg)))) ∧
    (∀ e i sem, env.waitFence = true → env.nextImage = .ok i →
      env.resetFence = true → env.render = .ok sem → env.present = .error e →
      ((e.isStale = true →
        (render_frame env fences ap slot).2 = .ok .SwapchainRecreate) ∧
       (e.isStale = false →
        (render_frame env fences ap slot).2 = .error (.other e.msg)))) ∧
    (∀ e : SwapchainSyncError, e = .SurfaceOutDate ∨ e = .SubOptimal ∨
      e = .TimeOut ∨ e = .Unknown) := by
  refine ⟨?_, ?_, ?_⟩
  · intro e hw hni
    constructor
    · intro hst
      cases e with
      | SurfaceOutDate => simp [render_frame, hw, hni]
      | SubOptimal => simp [render_frame, hw, hni]
      | TimeOut => simp [SwapchainSyncError.isStale] at hst
      | Unknown => simp [SwapchainSyncError.isStale] at hst
    · intro hst
      cases e with
      | SurfaceOutDate => simp [SwapchainSyncError.isStale] at hst
      | SubOptimal => simp [SwapchainSyncError.isStale] at hst
      | TimeOut => simp [render_frame, hw, hni]
      | Unknown => simp [render_frame, hw, hni]
  · intro e i sem hw hni hrf hrd hp
    constructor
    · intro hst
      cases e with
      | SurfaceOutDate => simp [render_frame, hw, hni, hrf, hrd, hp]
      | SubOptimal => simp [render_frame, hw, hni, hrf, hrd, hp]
      | TimeOut => simp [SwapchainSyncError.isStale] at hst
      | Unknown => simp [SwapchainSyncError.isStale] at hst
    · intro hst
      cases e with
      | SurfaceOutDate => simp [SwapchainSyncError.isStale] at hst
      | SubOptimal => simp [SwapchainSyncError.isStale] at hst
      | TimeOut => simp [render_frame, hw, hni, hrf, hrd, hp]
      | Unknown => simp [render_frame, hw, hni, hrf, hrd, hp]
  · intro e
    cases e
    · exact Or.inl rfl
    · exact Or.inr (Or.inl rfl)
    · exact Or.inr (Or.inr (Or.inl rfl))
    · exact Or.inr (Or.inr (Or.inr rfl))



/-- Witness for C4: an out-of-date acquisition yields `SwapchainRecreate`,
and a presentation timeout yields a fatal error. -/
theorem claim_C4_witness :
    (render_frame renderEnvC4a [5] 20 0).2 = .ok .SwapchainRecreate ∧
    (render_frame renderEnvC4b [5] 20 0).2 =
      .error (.other SwapchainSyncError.TimeOut.msg) :=
  ⟨((claim_C4_stale_vs_fatal_classification renderEnvC4a [5] 20 0).1
      .SurfaceOutDate rfl rfl).1 rfl,
   ((claim_C4_stale_vs_fatal_classification renderEnvC4b [5] 20 0).2.1
      .TimeOut 1 30 rfl rfl rfl rfl rfl).2 rfl⟩

/-- `render_frame` can only resolve to `Rendering` or `SwapchainRecreate`,
never to `Terminal`. -/
theorem render_frame_ne_terminal (env : RenderEnv) (fences : List Nat)
    (ap slot : Nat) :
    (render_frame env fences ap slot).2 ≠ .ok .Terminal := by
  simp only [render_frame]
  split
  · split
    · simp
    · simp
    · simp
    · simp
    · split
      · split
        · simp
        · split <;> simp
      · simp
  · simp




/-- Counterexample to C2: when acquisition reports `SubOptimal` at slot 1
(frame 7 with N = 3), the iteration ends with the frame counter advanced to
slot 2, not held at slot 1 — `main_loop` runs `frame_counter.next_frame()`
even for the aborted frame. -/
theorem claim_C2_counterexample :
    (main_loop_iter iterEnvC2 loopStateC2).2 =
      .next { counter := { frame_count := 3, current := 2 }, fences := [10, 11, 12],
              await_present := 20, inputTicks := 8, fpsTicks := 8 } ∧
    (2 : Nat) ≠ loopStateC2.counter.current :=
  ⟨rfl, by decide⟩

/-- C2 (amended): for every loop iteration in which image acquisition
reports a stale/suboptimal surface (with benign input and successful
recreation), the orchestrator reacts with the recreation sequence — device
idle, swapchain rebuild, app reload — and then still runs the
end-of-iteration bookkeeping: the frame counter IS advanced for the aborted
frame, so the next iteration waits on the fence of slot
`(slot + 1) mod N`, not on the same slot. -/
theorem claim_C2_amended_stale_acquire_advances_counter (env : IterEnv)
    (s : LoopState) (hW : env.windowAction = .Rendering)
    (hI : env.inputAction = .Rendering) (hwf : env.render.waitFence = true)
    (e : SwapchainSyncError) (he : env.render.nextImage = .error e)
    (hstale : e.isStale = true) (hOR : env.onRender.Ok) :
    (main_loop_iter env s).1 =
      [LEvent.pollEvents, .receiveInput,
       .render (.waitFence (s.fences.getD s.counter.current 0)),
       .render (.acquireImage s.await_present),
       .waitIdle, .recreateSwapchain, .swapchainReload,
       .inputTick, .nextFrame, .fpsTick] ∧
    (main_loop_iter env s).2 =
      .next { s with counter := s.counter.next_frame,
                     inputTicks := s.inputTicks + 1,
                     fpsTicks := s.fpsTicks + 1 } ∧
    s.counter.next_frame.current = (s.counter.current + 1) % s.counter.frame_count := by
  obtain ⟨hr1, hr2, hr3⟩ := hOR
  cases e with
  | SurfaceOutDate =>
    refine ⟨?_, ?_, rfl⟩ <;>
      simp [main_loop_iter, response_feedback, render_frame, hW, hI, hwf, he,
            hr1, hr2, hr3]
  | SubOptimal =>
    refine ⟨?_, ?_, rfl⟩ <;>
      simp [main_loop_iter, response_feedback, render_frame, hW, hI, hwf, he,
            hr1, hr2, hr3]
  | TimeOut => simp [SwapchainSyncError.isStale] at hstale
  | Unknown => simp [SwapchainSyncError.isStale] at hstale

/-- Witness for the amended C2 at the concrete frame-7 scenario. -/
theorem claim_C2_witness :
    (main_loop_iter iterEnvC2 loopStateC2).2 =
      .next { loopStateC2 with counter := loopStateC2.counter.next_frame,
                               inputTicks := loopStateC2.inputTicks + 1,
                               fpsTicks := loopStateC2.fpsTicks + 1 } :=
  (claim_C2_amended_stale_acquire_advances_counter iterEnvC2 loopStateC2
      rfl rfl rfl .SubOptimal rfl rfl ⟨rfl, rfl, rfl⟩).2.1

/-- C5: whenever any of the three per-iteration checkpoints (input poll,
application input delivery, render outcome) yields `SwapchainRecreate` —
with no `Terminal` at the other checkpoints, a non-fatal render step and
successful recreation calls — the iteration performs, in order, device-idle
wait, swapchain recreation and app reload; it does not terminate the loop,
and it still executes the end-of-iteration bookkeeping (input tick, frame
counter advance, fps tick). -/
theorem claim_C5_recreate_keeps_loop_running (env : IterEnv) (s : LoopState)
    (hW : env.windowAction ≠ .Terminal) (hI : env.inputAction ≠ .Terminal)
    (hOW : env.onWindow.Ok) (hOI : env.onInput.Ok) (hOR : env.onRender.Ok)
    (act : FrameAction)
    (hrender : (render_frame env.render s.fences s.await_present
        s.counter.current).2 = .ok act)
    (htrigger : env.windowAction = .SwapchainRecreate ∨
      env.inputAction = .SwapchainRecreate ∨ act = .SwapchainRecreate) :
    (main_loop_iter env s).2 =
      .next { s with counter := s.counter.next_frame,
                     inputTicks := s.inputTicks + 1,
                     fpsTicks := s.fpsTicks + 1 } ∧
    (∃ pre post, (main_loop_iter env s).1 =
      pre ++ [LEvent.waitIdle, .recreateSwapchain, .swapchainReload] ++ post) ∧
    LEvent.inputTick ∈ (main_loop_iter env s).1 ∧
    LEvent.nextFrame ∈ (main_loop_iter env s).1 ∧
    LEvent.fpsTick ∈ (main_loop_iter env s).1 := by
  obtain ⟨hw1, hw2, hw3⟩ := hOW
  obtain ⟨hi1, hi2, hi3⟩ := hOI
  obtain ⟨hr1, hr2, hr3⟩ := hOR
  cases hrf : render_frame env.render s.fences s.await_present s.counter.current with
  | mk rtr rres =>
    have hres : rres = .ok act := by rw [hrf] at hrender; exact hrender
    subst hres
    cases act with
    | Terminal =>
      exact absurd (by rw [hrf])
        (render_frame_ne_terminal env.render s.fences s.await_present s.counter.current)
    | Rendering =>
      cases hwa : env.windowAction with
      | Terminal => exact absurd hwa hW
      | Rendering =>
        cases hia : env.inputAction with
        | Terminal => exact absurd hia hI
        | Rendering =>
          rcases htrigger with ht | ht | ht <;> rw [hwa] at * <;> rw [hia] at * <;>
            simp_all
        | SwapchainRecreate =>
          refine ⟨?_, ⟨[LEvent.pollEvents, .receiveInput],
            rtr.map LEvent.render ++ [.inputTick, .nextFrame, .fpsTick], ?_⟩,
            ?_, ?_, ?_⟩ <;>
          simp [main_loop_iter, response_feedback, hwa, hia, hrf,
                hw1, hw2, hw3, hi1, hi2, hi3, hr1, hr2, hr3]
      | SwapchainRecreate =>
        cases hia : env.inputAction with
        | Terminal => exact absurd hia hI
        | Rendering =>
          refine ⟨?_, ⟨[LEvent.pollEvents],
            LEvent.receiveInput :: (rtr.map LEvent.render ++
              [.inputTick, .nextFrame, .fpsTick]), ?_⟩, ?_, ?_, ?_⟩ <;>
          simp [main_loop_iter, response_feedback, hwa, hia, hrf,
                hw1, hw2, hw3, hi1, hi2, hi3, hr1, hr2, hr3]
        | SwapchainRecreate =>
          refine ⟨?_, ⟨[LEvent.pollEvents],
            LEvent.receiveInput :: ([LEvent.waitIdle, .recreateSwapchain,
              .swapchainReload] ++ rtr.map LEvent.render ++
              [.inputTick, .nextFrame, .fpsTick]), ?_⟩, ?_, ?_, ?_⟩ <;>
          simp [main_loop_iter, response_feedback, hwa, hia, hrf,
                hw1, hw2, hw3, hi1, hi2, hi3, hr1, hr2, hr3]
    | SwapchainRecreate =>
      cases hwa : env.windowAction with
      | Terminal => exact absurd hwa hW
      | Rendering =>
        cases hia : env.inputAction with
        | Terminal => exact absurd hia hI
        | Rendering =>
          refine ⟨?_, ⟨[LEvent.pollEvents, .receiveInput] ++ rtr.map LEvent.render,
            [LEvent.inputTick, .nextFrame, .fpsTick], ?_⟩, ?_, ?_, ?_⟩ <;>
          simp [main_loop_iter, response_feedback, hwa, hia, hrf,
                hw1, hw2, hw3, hi1, hi2, hi3, hr1, hr2, hr3]
        | SwapchainRecreate =>
          refine ⟨?_, ⟨[LEvent.pollEvents, .receiveInput],
            rtr.map LEvent.render ++ [LEvent.waitIdle, .recreateSwapchain,
              .swapchainReload, .inputTick, .nextFrame, .fpsTick], ?_⟩,
            ?_, ?_, ?_⟩ <;>
          simp [main_loop_iter, response_feedback, hwa, hia, hrf,
                hw1, hw2, hw3, hi1, hi2, hi3, hr1, hr2, hr3]
      | SwapchainRecreate =>
        cases hia : env.inputAction with
        | Terminal => exact absurd hia hI
        | Rendering =>
          refine ⟨?_, ⟨[LEvent.pollEvents],
            LEvent.receiveInput :: (rtr.map LEvent.render ++
              [LEvent.waitIdle, .recreateSwapchain, .swapchainReload,
               .inputTick, .nextFrame, .fpsTick]), ?_⟩, ?_, ?_, ?_⟩ <;>
          simp [main_loop_iter, response_feedback, hwa, hia, hrf,
                hw1, hw2, hw3, hi1, hi2, hi3, hr1, hr2, hr3]
        | SwapchainRecreate =>
          refine ⟨?_, ⟨[LEvent.pollEvents],
            LEvent.receiveInput :: ([LEvent.waitIdle, .recreateSwapchain,
              .swapchainReload] ++ rtr.map LEvent.render ++
              [LEvent.waitIdle, .recreateSwapchain, .swapchainReload,
               .inputTick, .nextFrame, .fpsTick]), ?_⟩, ?_, ?_, ?_⟩ <;>
          simp [main_loop_iter, response_feedback, hwa, hia, hrf,
                hw1, hw2, hw3, hi1, hi2, hi3, hr1, hr2, hr3]


/-- Witness for C5: the recreation iteration still advances to the next
frame slot and ticks the counters. -/
theorem claim_C5_witness :
    (main_loop_iter iterEnvC5 loopStateC2).2 =
      .next { loopStateC2 with counter := loopStateC2.counter.next_frame,
                               inputTicks := loopStateC2.inputTicks + 1,
                               fpsTicks := loopStateC2.fpsTicks + 1 } :=
  (claim_C5_recreate_keeps_loop_running iterEnvC5 loopStateC2
      (by simp [iterEnvC5]) (by simp [iterEnvC5])
      ⟨rfl, rfl, rfl⟩ ⟨rfl, rfl, rfl⟩ ⟨rfl, rfl, rfl⟩
      .Rendering rfl (Or.inl rfl)).1

-- ---------------------------------------------------------------------------
-- C3 : memory-type symmetry of the two upload sub-paths
-- ---------------------------------------------------------------------------




/-- Counterexample to C3: for the device-local destination role the two
sub-paths do NOT request the same memory property flags — the indexed path
of `allocate_mesh` requests `DEVICE_LOCAL` (1) while the non-indexed path
requests `DEVICE_LOCAL | HOST_COHERENT` (5). -/
theorem claim_C3_counterexample :
    memQueries (allocate_mesh gpuOracleC3.toDevice assetIndexed).1 =
      [(0xFF, DEVICE_LOCAL)] ∧
    memQueries (allocate_mesh gpuOracleC3.toDevice assetNonIndexed).1 =
      [(0xFF, DEVICE_LOCAL ||| HOST_COHERENT)] ∧
    DEVICE_LOCAL ≠ DEVICE_LOCAL ||| HOST_COHERENT :=
  ⟨rfl, rfl, by decide⟩

/-- C3 (amended): the indexed sub-path selects the memory type from the
intersection of the vertex and index buffers' requirement bitmasks and the
non-indexed sub-path from the vertex buffer's bitmask alone, in both
`allocate_mesh` and `allocate_staging`; for the host-visible staging role
both sub-paths request the same property flags
(`HOST_VISIBLE | HOST_COHERENT`), but for the device-local destination role
the flags differ: `DEVICE_LOCAL` on the indexed path versus
`DEVICE_LOCAL | HOST_COHERENT` on the non-indexed path. -/
theorem claim_C3_amended_memory_type_requests (o : GpuOracle)
    (a : MeshAssetData) :
    (∀ s, a.indexCISize = some s →
      memQueries (allocate_mesh o.toDevice a).1 =
        [((o.bufReq { size := a.vertexCISize, usage := VERTEX_BUFFER ||| TRANSFER_DST }).memory_type_bits &&&
          (o.bufReq { size := s, usage := INDEX_BUFFER ||| TRANSFER_DST }).memory_type_bits,
          DEVICE_LOCAL)] ∧
      memQueries (allocate_staging o.toDevice a).1 =
        [((o.bufReq { size := a.vertexCISize, usage := TRANSFER_SRC }).memory_type_bits &&&
          (o.bufReq { size := s, usage := TRANSFER_SRC }).memory_type_bits,
          HOST_VISIBLE ||| HOST_COHERENT)]) ∧
    (a.indexCISize = none →
      memQueries (allocate_mesh o.toDevice a).1 =
        [((o.bufReq { size := a.vertexCISize, usage := VERTEX_BUFFER ||| TRANSFER_DST }).memory_type_bits,
          DEVICE_LOCAL ||| HOST_COHERENT)] ∧
      memQueries (allocate_staging o.toDevice a).1 =
        [((o.bufReq { size := a.vertexCISize, usage := TRANSFER_SRC }).memory_type_bits,
          HOST_VISIBLE ||| HOST_COHERENT)]) := by
  constructor
  · intro s hidx
    constructor
    · simp [allocate_mesh, GpuOracle.toDevice, MeshAssetData.attributes_buffer_ci,
            MeshAssetData.indices_buffer_ci, hidx, memQueries]
    · simp [allocate_staging, allocate_staging_block, staging_map_bind,
            GpuOracle.toDevice, MeshAssetData.attributes_buffer_ci,
            MeshAssetData.indices_buffer_ci, hidx, memQueries]
  · intro hidx
    constructor
    · simp [allocate_mesh, GpuOracle.toDevice, MeshAssetData.attributes_buffer_ci,
            MeshAssetData.indices_buffer_ci, hidx, memQueries]
    · simp [allocate_staging, allocate_staging_block, staging_map_bind,
            GpuOracle.toDevice, MeshAssetData.attributes_buffer_ci,
            MeshAssetData.indices_buffer_ci, hidx, memQueries]

/-- Witness for the amended C3 at the concrete oracle and assets. -/
theorem claim_C3_witness :
    memQueries (allocate_staging gpuOracleC3.toDevice assetIndexed).1 =
      [(0xFF &&& 0xFF, HOST_VISIBLE ||| HOST_COHERENT)] ∧
    memQueries (allocate_staging gpuOracleC3.toDevice assetNonIndexed).1 =
      [(0xFF, HOST_VISIBLE ||| HOST_COHERENT)] :=
  ⟨((claim_C3_amended_memory_type_requests gpuOracleC3 assetIndexed).1
      24 rfl).2,
   ((claim_C3_amended_memory_type_requests gpuOracleC3 assetNonIndexed).2
      rfl).2⟩

/-- C7: for every mesh asset with index data, the recorded staging-to-device
copy uses identical source and destination offsets per region — the vertex
region at offset 0 with the vertex size, the index region at source and
destination offset `vertexSize` with the index size — and the staging buffer
binds vertex data at offset 0 and index data at offset `vertexSize`; a
non-indexed asset records exactly one copy region and allocates exactly one
destination buffer. -/
theorem claim_C7_copy_region_layout (o : GpuOracle) (a : MeshAssetData) :
    (∀ s, a.indexCISize = some s →
      copyRegions (allocate o.toDevice a).1 =
        [{ src_offset := 0, dst_offset := 0,
           size := (o.bufReq { size := a.vertexCISize, usage := TRANSFER_SRC }).size },
         { src_offset := (o.bufReq { size := a.vertexCISize, usage := TRANSFER_SRC }).size,
           dst_offset := (o.bufReq { size := a.vertexCISize, usage := TRANSFER_SRC }).size,
           size := (o.bufReq { size := s, usage := TRANSFER_SRC }).size }] ∧
      bindOffsets (allocate_staging o.toDevice a).1 =
        [0, (o.bufReq { size := a.vertexCISize, usage := TRANSFER_SRC }).size]) ∧
    (a.indexCISize = none →
      copyRegions (allocate o.toDevice a).1 =
        [{ src_offset := 0, dst_offset := 0,
           size := (o.bufReq { size := a.vertexCISize, usage := TRANSFER_SRC }).size }] ∧
      createdBuffers (allocate_mesh o.toDevice a).1 = 1) := by
  constructor
  · intro s hidx
    constructor
    · simp [allocate, allocate_staging, allocate_staging_block, staging_map_bind,
            allocate_mesh, copy_staging2mesh, record_regions, MeshAssetBlock.discard,
            GpuOracle.toDevice, MeshAssetData.attributes_buffer_ci,
            MeshAssetData.indices_buffer_ci, hidx, copyRegions]
    · simp [allocate_staging, allocate_staging_block, staging_map_bind,
            GpuOracle.toDevice, MeshAssetData.attributes_buffer_ci,
            MeshAssetData.indices_buffer_ci, hidx, bindOffsets]
  · intro hidx
    constructor
    · simp [allocate, allocate_staging, allocate_staging_block, staging_map_bind,
            allocate_mesh, copy_staging2mesh, record_regions, MeshAssetBlock.discard,
            GpuOracle.toDevice, MeshAssetData.attributes_buffer_ci,
            MeshAssetData.indices_buffer_ci, hidx, copyRegions]
    · simp [allocate_mesh, GpuOracle.toDevice, MeshAssetData.attributes_buffer_ci,
            MeshAssetData.indices_buffer_ci, hidx, createdBuffers]

/-- Witness for C7 at the concrete oracle (requirement size = create size):
96-byte vertex region, 24-byte index region at offset 96. -/
theorem claim_C7_witness :
    (copyRegions (allocate gpuOracleC3.toDevice assetIndexed).1 =
      [{ src_offset := 0, dst_offset := 0, size := 96 },
       { src_offset := 96, dst_offset := 96, size := 24 }] ∧
     bindOffsets (allocate_staging gpuOracleC3.toDevice assetIndexed).1 = [0, 96]) ∧
    createdBuffers (allocate_mesh gpuOracleC3.toDevice assetNonIndexed).1 = 1 :=
  ⟨(claim_C7_copy_region_layout gpuOracleC3 assetIndexed).1 24 rfl,
   ((claim_C7_copy_region_layout gpuOracleC3 assetNonIndexed).2 rfl).2⟩


/-- The region-recording section destroys nothing. -/
theorem record_regions_no_destroy (staging mesh : MeshAssetBlock)
    (rtr : List MeshEvent) (r : RustResult Unit)
    (h : record_regions staging mesh = (rtr, r)) :
    ∀ ev ∈ rtr, ev.isDestroy = false := by
  simp only [record_regions] at h
  split at h
  · split at h
    · injection h with h1 h2
      subst h1
      intro ev hev
      simp at hev
      subst hev
      rfl
    · injection h with h1 h2
      subst h1
      intro ev hev
      rcases List.mem_append.mp hev with hm | hm <;> simp at hm <;> subst hm <;> rfl
  · injection h with h1 h2
    subst h1
    intro ev hev
    simp at hev
    subst hev
    rfl

/-- Destroy-freedom is preserved by list concatenation. -/
theorem no_destroy_append {l1 l2 : List MeshEvent}
    (h1 : ∀ ev ∈ l1, ev.isDestroy = false) (h2 : ∀ ev ∈ l2, ev.isDestroy = false) :
    ∀ ev ∈ l1 ++ l2, ev.isDestroy = false := by
  intro ev hm
  rcases List.mem_append.mp hm with hm | hm
  · exact h1 ev hm
  · exact h2 ev hm

/-- C8: every upload submits its one-shot command buffer gated by a fence
created unsignaled, then block-waits on it with an infinite timeout; in a
successful run the fence and command pool destructions appear only after the
successful wait, any run that reaches a destroy event is a fully successful
run, and at the `allocate` level the whole pipeline (on an all-success
device) destroys the staging buffer and its memory only after the wait and
returns the destination block. -/
theorem claim_C8_upload_fence_lifecycle :
    (∀ (dev : GpuDevice) (staging mesh : MeshAssetBlock) (tr : List MeshEvent)
        (res : RustResult Unit), copy_staging2mesh dev staging mesh = (tr, res) →
      ((res = .ok () → ∃ f pre, dev.buildFence false = .ok f ∧
          dev.waitForFences f = .ok () ∧
          tr = pre ++ [.createFence false, .queueSubmit f, .waitFence f true,
            .destroyFence f, .destroyCommandPool] ∧
          ∀ ev ∈ pre, ev.isDestroy = false) ∧
       ((∃ ev ∈ tr, ev.isDestroy = true) → res = .ok ()))) ∧
    (∀ (o : GpuOracle) (a : MeshAssetData),
      (∃ block, (allocate o.toDevice a).2 = .ok block) ∧
      destroysAfterWait (allocate o.toDevice a).1 = true ∧
      (∃ f, MeshEvent.destroyFence f ∈ (allocate o.toDevice a).1) ∧
      MeshEvent.destroyCommandPool ∈ (allocate o.toDevice a).1 ∧
      (∃ b, MeshEvent.destroyBuffer b ∈ (allocate o.toDevice a).1) ∧
      (∃ m, MeshEvent.destroyMemory m ∈ (allocate o.toDevice a).1)) := by
  constructor
  · intro dev staging mesh tr res h
    have hdr : ∀ ev ∈ [MeshEvent.createCommandPool, .createCommandBuffer,
        .beginRecord], ev.isDestroy = false := by
      intro ev hm
      rcases (by simpa using hm : ev = MeshEvent.createCommandPool ∨
        ev = .createCommandBuffer ∨ ev = .beginRecord) with rfl | rfl | rfl <;> rfl
    simp only [copy_staging2mesh] at h
    split at h
    · -- command pool creation failed
      injection h with h1 h2
      subst h1; subst h2
      refine ⟨fun hok => by simp at hok, fun hdes => ?_⟩
      obtain ⟨ev, hmem, hd⟩ := hdes
      simp at hmem
      subst hmem
      simp [MeshEvent.isDestroy] at hd
    · -- command buffer allocation failed
      split at h
      · injection h with h1 h2
        subst h1; subst h2
        refine ⟨fun hok => by simp at hok, fun hdes => ?_⟩
        obtain ⟨ev, hmem, hd⟩ := hdes
        rcases (by simpa using hmem : ev = MeshEvent.createCommandPool ∨
          ev = .createCommandBuffer) with rfl | rfl <;>
          simp [MeshEvent.isDestroy] at hd
      · -- begin_record failed
        split at h
        · injection h with h1 h2
          subst h1; subst h2
          refine ⟨fun hok => by simp at hok, fun hdes => ?_⟩
          obtain ⟨ev, hmem, hd⟩ := hdes
          have := hdr ev (by simpa using hmem)
          rw [this] at hd
          exact Bool.noConfusion hd
        · -- recording section
          split at h
          · -- record_regions panicked
            rename_i rtr heq
            injection h with h1 h2
            subst h1; subst h2
            refine ⟨fun hok => by simp at hok, fun hdes => ?_⟩
            obtain ⟨ev, hmem, hd⟩ := hdes
            have := no_destroy_append hdr
              (record_regions_no_destroy staging mesh rtr _ heq) ev hmem
            rw [this] at hd
            exact Bool.noConfusion hd
          · -- record_regions returned an error
            rename_i rtr e heq
            injection h with h1 h2
            subst h1; subst h2
            refine ⟨fun hok => by simp at hok, fun hdes => ?_⟩
            obtain ⟨ev, hmem, hd⟩ := hdes
            have := no_destroy_append hdr
              (record_regions_no_destroy staging mesh rtr _ heq) ev hmem
            rw [this] at hd
            exact Bool.noConfusion hd
          · -- recording succeeded
            rename_i rtr u heq
            have hrec : ∀ ev ∈ [MeshEvent.createCommandPool, .createCommandBuffer,
                .beginRecord] ++ rtr, ev.isDestroy = false :=
              no_destroy_append hdr (record_regions_no_destroy staging mesh rtr _ heq)
            split at h
            · -- end_record failed
              injection h with h1 h2
              subst h1; subst h2
              refine ⟨fun hok => by simp at hok, fun hdes => ?_⟩
              obtain ⟨ev, hmem, hd⟩ := hdes
              have := no_destroy_append hrec
                (by intro ev hm; simp at hm; subst hm; rfl) ev hmem
              rw [this] at hd
              exact Bool.noConfusion hd
            · -- fence creation failed
              split at h
              · injection h with h1 h2
                subst h1; subst h2
                refine ⟨fun hok => by simp at hok, fun hdes => ?_⟩
                obtain ⟨ev, hmem, hd⟩ := hdes
                have := no_destroy_append hrec
                  (by intro ev hm
                      rcases (by simpa using hm : ev = MeshEvent.endRecord ∨
                        ev = .createFence false) with rfl | rfl <;> rfl) ev hmem
                rw [this] at hd
                exact Bool.noConfusion hd
              · -- submit failed
                rename_i fence heqF
                split at h
                · injection h with h1 h2
                  subst h1; subst h2
                  refine ⟨fun hok => by simp at hok, fun hdes => ?_⟩
                  obtain ⟨ev, hmem, hd⟩ := hdes
                  have := no_destroy_append hrec
                    (by intro ev hm
                        rcases (by simpa using hm : ev = MeshEvent.endRecord ∨
                          ev = .createFence false ∨ ev = .queueSubmit fence) with
                          rfl | rfl | rfl <;> rfl) ev hmem
                  rw [this] at hd
                  exact Bool.noConfusion hd
                · -- wait failed
                  split at h
                  · injection h with h1 h2
                    subst h1; subst h2
                    refine ⟨fun hok => by simp at hok, fun hdes => ?_⟩
                    obtain ⟨ev, hmem, hd⟩ := hdes
                    have := no_destroy_append hrec
                      (by intro ev hm
                          rcases (by simpa using hm : ev = MeshEvent.endRecord ∨
                            ev = .createFence false ∨ ev = .queueSubmit fence ∨
                            ev = .waitFence fence true) with rfl | rfl | rfl | rfl <;> rfl)
                      ev hmem
                    rw [this] at hd
                    exact Bool.noConfusion hd
                  · -- wait succeeded: the destruction epilogue runs
                    rename_i u2 heqW
                    injection h with h1 h2
                    subst h1; subst h2
                    refine ⟨fun _ => ?_, fun _ => rfl⟩
                    refine ⟨fence, ([MeshEvent.createCommandPool, .createCommandBuffer,
                      .beginRecord] ++ rtr) ++ [.endRecord], heqF, by rw [heqW], ?_, ?_⟩
                    · simp
                    · exact no_destroy_append hrec
                        (by intro ev hm; simp at hm; subst hm; rfl)
  · intro o a
    cases hidx : a.indexCISize with
    | some s =>
      refine ⟨?_, ?_, ?_, ?_, ?_, ?_⟩ <;>
        simp [allocate, allocate_staging, allocate_staging_block, staging_map_bind,
              allocate_mesh, copy_staging2mesh, record_regions, MeshAssetBlock.discard,
              GpuOracle.toDevice, MeshAssetData.attributes_buffer_ci,
              MeshAssetData.indices_buffer_ci, hidx, destroysAfterWait,
              MeshEvent.isDestroy]
    | none =>
      refine ⟨?_, ?_, ?_, ?_, ?_, ?_⟩ <;>
        simp [allocate, allocate_staging, allocate_staging_block, staging_map_bind,
              allocate_mesh, copy_staging2mesh, record_regions, MeshAssetBlock.discard,
              GpuOracle.toDevice, MeshAssetData.attributes_buffer_ci,
              MeshAssetData.indices_buffer_ci, hidx, destroysAfterWait,
              MeshEvent.isDestroy]

/-- Witness for C8: the all-success indexed upload returns a block and
destroys only after the wait. -/
theorem claim_C8_witness :
    (∃ block, (allocate gpuOracleC3.toDevice assetIndexed).2 = .ok block) ∧
    destroysAfterWait (allocate gpuOracleC3.toDevice assetIndexed).1 = true :=
  ⟨(claim_C8_upload_fence_lifecycle.2 gpuOracleC3 assetIndexed).1,
   (claim_C8_upload_fence_lifecycle.2 gpuOracleC3 assetIndexed).2.1⟩

-- ---------------------------------------------------------------------------
-- C9 : mesh.index.unwrap() cannot panic
-- ---------------------------------------------------------------------------

/-- A successful `allocate_mesh` yields an index buffer exactly when the
asset's indices yield a buffer create-info. -/
theorem allocate_mesh_index_isSome (dev : GpuDevice) (a : MeshAssetData)
    (tr : List MeshEvent) (mb : MeshAssetBlock)
    (h : allocate_mesh dev a = (tr, .ok mb)) :
    mb.index.isSome = a.indexCISize.isSome := by
  simp only [allocate_mesh] at h
  split at h
  · exact absurd h (by simp)
  · split at h
    · rename_i heqI
      split at h
      · exact absurd h (by simp)
      · split at h
        · exact absurd h (by simp)
        · injection h with h1 h2
          injection h2 with h2
          subst h2
          simp only [MeshAssetData.indices_buffer_ci] at heqI
          simp [heqI]
    · rename_i heqI
      split at h
      · exact absurd h (by simp)
      · injection h with h1 h2
        injection h2 with h2
        subst h2
        simp only [MeshAssetData.indices_buffer_ci] at heqI
        simp [heqI]

/-- The allocation section of `allocate_staging` yields an index buffer
exactly when the asset's indices yield a buffer create-info. -/
theorem allocate_staging_block_index_isSome (dev : GpuDevice) (a : MeshAssetData)
    (tr : List MeshEvent) (sb : MeshAssetBlock)
    (h : allocate_staging_block dev a = (tr, .ok sb)) :
    sb.index.isSome = a.indexCISize.isSome := by
  simp only [allocate_staging_block] at h
  split at h
  · exact absurd h (by simp)
  · split at h
    · rename_i heqI
      split at h
      · exact absurd h (by simp)
      · split at h
        · exact absurd h (by simp)
        · injection h with h1 h2
          injection h2 with h2
          subst h2
          simp only [MeshAssetData.indices_buffer_ci] at heqI
          simp [heqI]
    · rename_i heqI
      split at h
      · exact absurd h (by simp)
      · injection h with h1 h2
        injection h2 with h2
        subst h2
        simp only [MeshAssetData.indices_buffer_ci] at heqI
        simp [heqI]

/-- A successful `allocate_staging` yields an index buffer exactly when the
asset's indices yield a buffer create-info. -/
theorem allocate_staging_index_isSome (dev : GpuDevice) (a : MeshAssetData)
    (tr : List MeshEvent) (sb : MeshAssetBlock)
    (h : allocate_staging dev a = (tr, .ok sb)) :
    sb.index.isSome = a.indexCISize.isSome := by
  simp only [allocate_staging] at h
  split at h
  · exact absurd h (by simp)
  · rename_i tr1 block heqB
    split at h
    · exact absurd h (by simp)
    · injection h with h1 h2
      injection h2 with h2
      subst h2
      exact allocate_staging_block_index_isSome dev a tr1 _ heqB

/-- `record_regions` panics exactly in the mismatched situation: staging has
an index buffer but the mesh block has none. -/
theorem record_regions_panicked (staging mesh : MeshAssetBlock)
    (rtr : List MeshEvent) (h : record_regions staging mesh = (rtr, .panicked)) :
    staging.index.isSome = true ∧ mesh.index.isSome = false := by
  simp only [record_regions] at h
  split at h
  · rename_i ib heqS
    split at h
    · rename_i heqM
      rw [heqS, heqM]
      exact ⟨rfl, rfl⟩
    · exact absurd h (by simp)
  · exact absurd h (by simp)

/-- `copy_staging2mesh` cannot panic when every staging index buffer is
matched by a mesh index buffer. -/
theorem copy_no_panic (dev : GpuDevice) (staging mesh : MeshAssetBlock)
    (hsm : staging.index.isSome = true → mesh.index.isSome = true) :
    (copy_staging2mesh dev staging mesh).2 ≠ RustResult.panicked := by
  simp only [copy_staging2mesh]
  split
  · simp
  · split
    · simp
    · split
      · simp
      · split
        · rename_i rtr heq
          obtain ⟨hS, hM⟩ := record_regions_panicked staging mesh rtr heq
          rw [hsm hS] at hM
          exact Bool.noConfusion hM
        · simp
        · split
          · simp
          · split
            · simp
            · split
              · simp
              · split
                · simp
                · simp

/-- C9: when the staging and mesh blocks are produced by `allocate_staging`
and `allocate_mesh` from the same `MeshAsset`, both have an index buffer if
and only if the asset's indices yield a buffer create-info, so the
`mesh.index.unwrap()` in `copy_staging2mesh` never panics. -/
theorem claim_C9_index_unwrap_never_panics (dev : GpuDevice)
    (a : MeshAssetData) (trS trM : List MeshEvent) (sb mb : MeshAssetBlock)
    (hS : allocate_staging dev a = (trS, .ok sb))
    (hM : allocate_mesh dev a = (trM, .ok mb)) :
    sb.index.isSome = mb.index.isSome ∧
    (copy_staging2mesh dev sb mb).2 ≠ RustResult.panicked := by
  have h1 := allocate_staging_index_isSome dev a trS sb hS
  have h2 := allocate_mesh_index_isSome dev a trM mb hM
  have hiff : sb.index.isSome = mb.index.isSome := h1.trans h2.symm
  exact ⟨hiff, copy_no_panic dev sb mb (fun hs => hiff.symm.trans hs ▸ rfl)⟩

/-- Witness for C9: the indexed asset's staging and mesh blocks agree and
the copy does not panic. -/
theorem claim_C9_witness :
    ({ vertex := (1, 96), index := some (1, 24), memory := 2 } :
        MeshAssetBlock).index.isSome =
      ({ vertex := (1, 96), index := some (1, 24), memory := 2 } :
        MeshAssetBlock).index.isSome ∧
    (copy_staging2mesh gpuOracleC3.toDevice
      { vertex := (1, 96), index := some (1, 24), memory := 2 }
      { vertex := (1, 96), index := some (1, 24), memory := 2 }).2 ≠
        RustResult.panicked :=
  claim_C9_index_unwrap_never_panics gpuOracleC3.toDevice assetIndexed _ _
    { vertex := (1, 96), index := some (1, 24), memory := 2 }
    { vertex := (1, 96), index := some (1, 24), memory := 2 } rfl rfl

end VulkanSpec
